import Mathlib

/-!
# `std::move` demonstration programs (`stdmove.cpp`, `stdmove_forward_refrences.cpp`)

A shallow embedding of the two teaching programs.  Both files contain the same
`class A` and the same `main`; `stdmove.cpp` additionally shows the
`Annotation` class whose constructor applies `std::move` to a `const` parameter.

Program state is passed explicitly: a memory that maps the address of every
`std::string` object to its content, and the characters written to `std::cout`.
Expressions that designate objects carry their const-qualification and value
category, because those two properties decide which overload (copy or move) a
call binds to.
-/

set_option linter.dupNamespace false

namespace StdMove

/-- Address of an object. -/
abbrev Addr := Nat

/-- Program state: the content of the `std::string` object at each address and
the characters written to `std::cout` so far. -/
structure State where
  mem : Addr → String
  cout : String

/-- Overwrite the content of the string object at address `a`. -/
def State.store (σ : State) (a : Addr) (s : String) : State :=
  { σ with mem := fun b => if b = a then s else σ.mem b }

/-- Stream insertion `std::cout << s`: appends the characters of `s`. -/
def State.put (σ : State) (s : String) : State :=
  { σ with cout := σ.cout ++ s }

/-- The manipulator `endl`: writes a newline (flushing has no observable content). -/
def State.endl (σ : State) : State :=
  σ.put "\n"

/-- Value category of an expression. -/
inductive Category where
  | lvalue
  | xvalue
  | prvalue
deriving DecidableEq, Repr

/-- An expression of type `std::string` or `A`: whether its type is
const-qualified, its value category, and the object it identifies.  An lvalue or
xvalue identifies an existing object; for a prvalue, which identifies no object
until it initialises one, `obj` is where the value it computes is held. -/
structure Expr where
  obj : Addr
  isConst : Bool
  cat : Category
deriving DecidableEq, Repr

/-- The name of a non-const variable or member: an lvalue. -/
def var (a : Addr) : Expr := { obj := a, isConst := false, cat := .lvalue }

/-- The name of a variable declared `const`: an lvalue of const type. -/
def const_var (a : Addr) : Expr := { obj := a, isConst := true, cat := .lvalue }

/-- The reference parameter types that occur in the overload sets of the source:
`const T&` and `T&&`. -/
inductive Param where
  | const_lref
  | rref
deriving DecidableEq, Repr

/-- Reference binding: `const T&` binds to every expression; `T&&` binds only to
an rvalue of non-const type (stdmove.cpp lines 104-110). -/
def Param.binds : Param → Expr → Bool
  | .const_lref, _ => true
  | .rref, e => !e.isConst && e.cat != Category.lvalue

/-- Overload resolution among overloads that differ only in the reference type
of their parameter: the `T&&` overload is chosen when it is declared and binds,
otherwise the `const T&` overload when it is declared; otherwise no overload is
usable and the call is ill-formed. -/
def resolve (overloads : List Param) (e : Expr) : Option Param :=
  if overloads.contains Param.rref && Param.binds .rref e then some .rref
  else if overloads.contains Param.const_lref then some .const_lref
  else none

end StdMove

namespace StdMove.std

/-- `std::move(t)`: `static_cast<typename remove_reference<T>::type&&>(t)`
(stdmove.cpp lines 1-22).  The result is an xvalue that identifies the argument;
const-qualification is part of `T` and is kept. -/
def move (t : Expr) : Expr := { t with cat := .xvalue }

/-- Evaluation of a call `std::move(t)` in a state: the cast computes the
resulting expression and touches neither memory nor `std::cout`. -/
def move_call (σ : State) (t : Expr) : State × Expr := (σ, move t)

end StdMove.std

namespace StdMove.std.string

/-- The two constructors of `std::string` listed in stdmove.cpp lines 97-103:
`string(const string& rhs)` and `string(string&& rhs)`. -/
def ctors : List Param := [.const_lref, .rref]

/-- The assignment operators of `std::string` taking a string:
`operator=(const string&)` and `operator=(string&&)`. -/
def assigns : List Param := [.const_lref, .rref]

/-- Default constructor `string()`: the new string is empty. -/
def default_ctor (σ : State) (this : Addr) : State := σ.store this ""

/-- Constructor from a string literal, as in `std::string str = "Hello"`. -/
def literal_ctor (σ : State) (this : Addr) (lit : String) : State := σ.store this lit

/-- Copy constructor `string(const string& rhs)`: the new string gets the
content of `rhs`; `rhs` is not written. -/
def copy_ctor (σ : State) (this rhs : Addr) : State := σ.store this (σ.mem rhs)

/-- Move constructor `string(string&& rhs)`: the new string takes the content of
`rhs` and `rhs` is left empty (the state every mainstream standard library
leaves a moved-from string in; stdmove.cpp lines 66-69). -/
def move_ctor (σ : State) (this rhs : Addr) : State :=
  (σ.store this (σ.mem rhs)).store rhs ""

/-- Copy assignment `operator=(const string& rhs)`. -/
def copy_assign (σ : State) (this rhs : Addr) : State := σ.store this (σ.mem rhs)

/-- Move assignment `operator=(string&& rhs)`: the destination takes the
content of `rhs`, then `rhs` is cleared. -/
def move_assign (σ : State) (this rhs : Addr) : State :=
  (σ.store this (σ.mem rhs)).store rhs ""

/-- Direct initialisation `string x(e)` of the string at `this` from the
expression `e`.  A prvalue initialises the new string directly with its value:
no constructor is selected or called and nothing is moved from.  For an lvalue
or xvalue overload resolution picks the constructor. -/
def construct (σ : State) (this : Addr) (e : Expr) : Option State :=
  match e.cat with
  | .prvalue => some (σ.store this (σ.mem e.obj))
  | _ =>
    match resolve ctors e with
    | some .const_lref => some (copy_ctor σ this e.obj)
    | some .rref => some (move_ctor σ this e.obj)
    | none => none

/-- Assignment `x = e` to the string at `this`: overload resolution picks the
assignment operator. -/
def assign (σ : State) (this : Addr) (e : Expr) : Option State :=
  match resolve assigns e with
  | some .const_lref => some (copy_assign σ this e.obj)
  | some .rref => some (move_assign σ this e.obj)
  | none => none

end StdMove.std.string

namespace StdMove.std.vector

/-- The two overloads `push_back(const T&)` and `push_back(T&&)`. -/
def push_backs : List Param := [.const_lref, .rref]

/-- Call `v.push_back(e)` on a `std::vector<std::string>` whose elements are
`v`: `push_back(const T&)` appends a copy of the argument, `push_back(T&&)`
move-constructs the new element from the argument, which is left empty
(stdmove.cpp lines 61-70). -/
def push_back (σ : State) (v : List String) (e : Expr) : Option (State × List String) :=
  match resolve push_backs e with
  | some .const_lref => some (σ, v ++ [σ.mem e.obj])
  | some .rref => some (σ.store e.obj "", v ++ [σ.mem e.obj])
  | none => none

/-- Element access `v[i]`; there is no element outside the bounds. -/
def index (v : List String) (i : Nat) : Option String := v.get? i

end StdMove.std.vector

namespace StdMove.A

/-- Address of the data member `string member` of the `A` object at `this`
(the only data member of the class). -/
def member (this : Addr) : Addr := this

/-- Constructors of `A` that take an `A`: only `A(A&& arg)` is declared; since a
move constructor is declared, no copy constructor is available. -/
def ctors : List Param := [.rref]

/-- Assignment operators of `A`: only `operator=(A&& other)` is declared. -/
def assigns : List Param := [.rref]

/-- Default constructor `A(){}`: default-initialises `member`; the body is empty. -/
def A (σ : State) (this : Addr) : State :=
  std.string.default_ctor σ (member this)

/-- Move constructor
`A(A&& arg) : member(std::move(arg.member)) { cout<<"A Move constructor"<<endl; }`.
The expression `arg.member` is a non-const lvalue. -/
def A_move (σ : State) (this arg : Addr) : Option State := do
  let σ ← std.string.construct σ (member this) (std.move (var (member arg)))
  pure ((σ.put "A Move constructor").endl)

/-- Move assignment operator
`A& operator=(A&& other) { cout<<"A Move Assignment"<<endl;
member = std::move(other.member); return *this; }`.
The returned reference is the address of `*this`. -/
def operator_assign (σ : State) (this other : Addr) : Option (State × Addr) := do
  let σ := (σ.put "A Move Assignment").endl
  let σ ← std.string.assign σ (member this) (std.move (var (member other)))
  pure (σ, this)

/-- Direct initialisation `A x(e)` from an expression of type `A`.  A prvalue,
const or not, initialises the new object directly with its value: the
construction is elided, so no constructor of `A` is selected or called and no
marker is written.  For an lvalue or xvalue overload resolution picks the
constructor; only `A(A&& arg)` is there to pick. -/
def construct (σ : State) (this : Addr) (e : Expr) : Option State :=
  match e.cat with
  | .prvalue => some (σ.store (member this) (σ.mem (member e.obj)))
  | _ =>
    match resolve ctors e with
    | some .rref => A_move σ this e.obj
    | _ => none

/-- Assignment `x = e` where `e` has type `A`.  Nothing is elided here: a
prvalue operand is materialised and bound like any other rvalue. -/
def assign (σ : State) (this : Addr) (e : Expr) : Option (State × Addr) :=
  match resolve assigns e with
  | some .rref => operator_assign σ this e.obj
  | _ => none

end StdMove.A

namespace StdMove.Annotation

/-- Address of the data member `std::string value`. -/
def value (this : Addr) : Addr := this

/-- Constructor
`explicit Annotation(const std::string text) : value(std::move(text)) { … }`.
`text` is the address of the by-value parameter, an object of const type; the
elided body is taken to be empty. -/
def Annotation (σ : State) (this text : Addr) : Option State :=
  std.string.construct σ (value this) (std.move (const_var text))

end StdMove.Annotation

namespace StdMove

/-- The function `main` of both files (stdmove.cpp lines 50-73).  The locals
`o1`, `o2`, `o3`, `o4`, `str` live at the addresses 0 to 4; `v` is the element
list of the vector.  The result is the final state and the exit status. -/
def main (σ : State) : Option (State × Int) := do
  let o1 : Addr := 0
  let o2 : Addr := 1
  let o3 : Addr := 2
  let o4 : Addr := 3
  let str : Addr := 4
  let σ := A.A σ o1
  let σ ← A.construct σ o2 (std.move (var o1))
  let σ := A.A σ o3
  let σ := A.A σ o4
  let (σ, _) ← A.assign σ o4 (std.move (var o3))
  let σ := std.string.literal_ctor σ str "Hello"
  let v : List String := []
  let (σ, v) ← std.vector.push_back σ v (var str)
  let σ := ((σ.put "After copy, str is \"").put (σ.mem str)).put "\"\n"
  let (σ, v) ← std.vector.push_back σ v (std.move (var str))
  let σ := ((σ.put "After move, str is \"").put (σ.mem str)).put "\"\n"
  let v0 ← std.vector.index v 0
  let v1 ← std.vector.index v 1
  let σ := ((((σ.put "The contents of the vector are \"").put v0).put "\", \"").put v1).put "\"\n"
  pure (σ, 0)

/-- The text a run of `main` writes to `std::cout`. -/
def main_trace : String :=
  "A Move constructor\nA Move Assignment\nAfter copy, str is \"Hello\"\nAfter move, str is \"\"\nThe contents of the vector are \"Hello\", \"Hello\"\n"

/-- A state in which every string is empty and nothing has been printed. -/
def blank : State := { mem := fun _ => "", cout := "" }

/-- A state in which the string at address 0 holds `"Hello"`, every other
string is empty and nothing has been printed. -/
def hello_at_0 : State := { mem := fun a => if a = 0 then "Hello" else "", cout := "" }

end StdMove

namespace StdMove

/-! ## Memory and overload-resolution lemmas -/

@[simp] theorem State.store_mem_same (σ : State) (a : Addr) (s : String) :
    (σ.store a s).mem a = s := by
  simp [State.store]

@[simp] theorem State.store_mem_other (σ : State) (a b : Addr) (s : String) (h : b ≠ a) :
    (σ.store a s).mem b = σ.mem b := by
  simp [State.store, h]

@[simp] theorem State.store_cout (σ : State) (a : Addr) (s : String) :
    (σ.store a s).cout = σ.cout := rfl

@[simp] theorem State.put_mem (σ : State) (s : String) : (σ.put s).mem = σ.mem := rfl

@[simp] theorem State.put_cout (σ : State) (s : String) : (σ.put s).cout = σ.cout ++ s := rfl

@[simp] theorem State.endl_mem (σ : State) : σ.endl.mem = σ.mem := rfl

@[simp] theorem State.endl_cout (σ : State) : σ.endl.cout = σ.cout ++ "\n" := rfl

@[simp] theorem std.move_obj (t : Expr) : (std.move t).obj = t.obj := rfl

@[simp] theorem var_obj (a : Addr) : (var a).obj = a := rfl

@[simp] theorem const_var_obj (a : Addr) : (const_var a).obj = a := rfl

/-- With both overloads declared, a moved non-const variable binds to `T&&`. -/
theorem resolve_both_move_var (a : Addr) :
    resolve [Param.const_lref, Param.rref] (std.move (var a)) = some Param.rref := rfl

/-- With both overloads declared, a non-const variable named directly binds to `const T&`. -/
theorem resolve_both_var (a : Addr) :
    resolve [Param.const_lref, Param.rref] (var a) = some Param.const_lref := rfl

/-- With both overloads declared, a moved const variable still binds to `const T&`. -/
theorem resolve_both_move_const_var (a : Addr) :
    resolve [Param.const_lref, Param.rref] (std.move (const_var a)) = some Param.const_lref := rfl

/-- The move constructor of `A` on any two addresses. -/
theorem A.A_move_eq (σ : State) (this arg : Addr) :
    A.A_move σ this arg
      = some (((std.string.move_ctor σ (A.member this) (A.member arg)).put
          "A Move constructor").endl) := rfl

/-- The move assignment operator of `A` on any two addresses. -/
theorem A.operator_assign_eq (σ : State) (this other : Addr) :
    A.operator_assign σ this other
      = some (std.string.move_assign ((σ.put "A Move Assignment").endl)
          (A.member this) (A.member other), this) := rfl

/-- A run of `main` from any state terminates with status 0 and appends
`main_trace` to `std::cout`. -/
theorem main_run (σ : State) :
    ∃ σ', main σ = some (σ', 0) ∧ σ'.cout = σ.cout ++ main_trace := by
  refine ⟨_, rfl, ?_⟩
  show σ.cout ++ "A Move constructor" ++ "\n" ++ "A Move Assignment" ++ "\n"
      ++ "After copy, str is \"" ++ "Hello" ++ "\"\n"
      ++ "After move, str is \"" ++ "" ++ "\"\n"
      ++ "The contents of the vector are \"" ++ "Hello" ++ "\", \"" ++ "Hello" ++ "\"\n"
    = σ.cout ++ main_trace
  simp only [String.append_assoc]
  rfl

/-- Appending different texts to the same output gives different outputs. -/
theorem append_ne_of_ne (p a b : String) (h : a ≠ b) : p ++ a ≠ p ++ b := by
  intro hab
  apply h
  have hd := congrArg String.data hab
  simp only [String.data_append] at hd
  exact String.ext (List.append_cancel_left hd)

/-! ## The claims -/

/-- C1 (const defeats move): in `Annotation(const std::string text) :
value(std::move(text))` overload resolution over the constructors of
`std::string` selects the copy constructor and not the move constructor; after
construction `value` holds the content of `text` and `text` is unchanged. -/
theorem const_move_selects_copy (σ : State) (this text : Addr) :
    resolve std.string.ctors (std.move (const_var text)) = some Param.const_lref ∧
    resolve std.string.ctors (std.move (const_var text)) ≠ some Param.rref ∧
    ∃ σ', Annotation.Annotation σ this text = some σ' ∧
      σ' = std.string.copy_ctor σ ( Annotation.value this) text ∧
      σ'.mem ( Annotation.value this) = σ.mem text ∧
      σ'.mem text = σ.mem text ∧
      σ'.cout = σ.cout := by
  refine ⟨rfl, ?_, _, rfl, rfl, ?_, ?_, rfl⟩
  · rw [std.string.ctors, resolve_both_move_const_var]
    decide
  · simp [std.string.copy_ctor]
  · by_cases h : text = Annotation.value this
    · simp [std.string.copy_ctor, h]
    · simp [std.string.copy_ctor, h]

/-- C2 (move construction): constructing a new `A` at `this` from
`std::move(src)`, with `src` another non-const `A`, gives the new object the
content `src` held, leaves `src.member` empty and appends exactly the line
"A Move constructor" to the output. -/
theorem move_construct_transfers (σ : State) (this src : Addr) (h : this ≠ src) :
    ∃ σ', A.construct σ this (std.move (var src)) = some σ' ∧
      σ'.mem (A.member this) = σ.mem (A.member src) ∧
      σ'.mem (A.member src) = "" ∧
      σ'.cout = σ.cout ++ "A Move constructor\n" := by
  refine ⟨_, A.A_move_eq σ this src, ?_, ?_, ?_⟩
  · simp [std.string.move_ctor, A.member, h]
  · simp [std.string.move_ctor, A.member]
  · simp only [State.endl_cout, State.put_cout, std.string.move_ctor, State.store_cout,
      String.append_assoc]
    rfl

/-- Witness for C2: moving the `A` holding "Hello" at address 0 into a new `A`
at address 1. -/
theorem move_construct_transfers_witness :
    (1 : Addr) ≠ 0 ∧
    ∃ σ', A.construct hello_at_0 1 (std.move (var 0)) = some σ' ∧
      σ'.mem (A.member 1) = hello_at_0.mem (A.member 0) ∧
      σ'.mem (A.member 0) = "" ∧
      σ'.cout = hello_at_0.cout ++ "A Move constructor\n" :=
  ⟨by decide, move_construct_transfers hello_at_0 1 0 (by decide)⟩

/-- C3 (move assignment): `dst = std::move(src)` for distinct `A` objects gives
`dst.member` the content `src` held, whatever `dst` held before, leaves
`src.member` empty, appends exactly the line "A Move Assignment" to the output
and returns a reference to `dst`. -/
theorem move_assign_transfers (σ : State) (dst src : Addr) (h : dst ≠ src) :
    ∃ σ', A.assign σ dst (std.move (var src)) = some (σ', dst) ∧
      σ'.mem (A.member dst) = σ.mem (A.member src) ∧
      σ'.mem (A.member src) = "" ∧
      σ'.cout = σ.cout ++ "A Move Assignment\n" := by
  refine ⟨_, A.operator_assign_eq σ dst src, ?_, ?_, ?_⟩
  · simp [std.string.move_assign, A.member, h]
  · simp [std.string.move_assign, A.member]
  · simp only [State.endl_cout, State.put_cout, std.string.move_assign, State.store_cout,
      String.append_assoc]
    rfl

/-- Witness for C3: move-assigning the `A` holding "Hello" at address 0 to the
`A` at address 1. -/
theorem move_assign_transfers_witness :
    (1 : Addr) ≠ 0 ∧
    ∃ σ', A.assign hello_at_0 1 (std.move (var 0)) = some (σ', 1) ∧
      σ'.mem (A.member 1) = hello_at_0.mem (A.member 0) ∧
      σ'.mem (A.member 0) = "" ∧
      σ'.cout = hello_at_0.cout ++ "A Move Assignment\n" :=
  ⟨by decide, move_assign_transfers hello_at_0 1 0 (by decide)⟩

/-- C4 (append scenario): starting from an empty vector, `v.push_back(str)`
makes the first element equal to the content of `str` and leaves `str` as it
was; the following `v.push_back(std::move(str))` leaves exactly two elements,
both equal to the original content, and `str` empty. -/
theorem push_back_copy_then_move (σ : State) (str : Addr) :
    ∃ σ1 v1 σ2 v2,
      std.vector.push_back σ [] (var str) = some (σ1, v1) ∧
      std.vector.index v1 0 = some (σ.mem str) ∧
      σ1.mem str = σ.mem str ∧
      std.vector.push_back σ1 v1 (std.move (var str)) = some (σ2, v2) ∧
      v2 = [σ.mem str, σ.mem str] ∧
      v2.length = 2 ∧
      σ2.mem str = "" := by
  refine ⟨_, _, _, _, rfl, rfl, rfl, rfl, rfl, rfl, ?_⟩
  simp


/-- C5, counterexample: a source `A` whose member is empty (as `o1` and `o3` in
`main`) is moved from by the move constructor and by the move assignment
operator, and afterwards its content is the same as before, not different. -/
theorem move_from_empty_source_unchanged :
    ∃ σ1 σ2, A.construct blank 1 (std.move (var 0)) = some σ1 ∧
      A.assign blank 1 (std.move (var 0)) = some (σ2, 1) ∧
      σ1.mem (A.member 0) = blank.mem (A.member 0) ∧
      σ2.mem (A.member 0) = blank.mem (A.member 0) :=
  ⟨_, _, rfl, rfl, rfl, rfl⟩

/-- C5, amended: move construction and move assignment between distinct `A`
objects leave the destination holding the content the source held and the
source empty; the content of the source differs from what it held before
exactly when it held a non-empty string. -/
theorem move_vacates_nonempty_source (σ : State) (dst src : Addr) (h : dst ≠ src) :
    ∃ σ1 σ2, A.construct σ dst (std.move (var src)) = some σ1 ∧
      A.assign σ dst (std.move (var src)) = some (σ2, dst) ∧
      σ1.mem (A.member dst) = σ.mem (A.member src) ∧
      σ2.mem (A.member dst) = σ.mem (A.member src) ∧
      σ1.mem (A.member src) = "" ∧
      σ2.mem (A.member src) = "" ∧
      (σ1.mem (A.member src) ≠ σ.mem (A.member src) ↔ σ.mem (A.member src) ≠ "") ∧
      (σ2.mem (A.member src) ≠ σ.mem (A.member src) ↔ σ.mem (A.member src) ≠ "") := by
  have e1 : (((std.string.move_ctor σ (A.member dst) (A.member src)).put
      "A Move constructor").endl).mem (A.member src) = "" := by
    simp [std.string.move_ctor, A.member]
  have e2 : (std.string.move_assign ((σ.put "A Move Assignment").endl)
      (A.member dst) (A.member src)).mem (A.member src) = "" := by
    simp [std.string.move_assign, A.member]
  refine ⟨_, _, A.A_move_eq σ dst src, A.operator_assign_eq σ dst src, ?_, ?_, e1, e2, ?_, ?_⟩
  · simp [std.string.move_ctor, A.member, h]
  · simp [std.string.move_assign, A.member, h]
  · rw [e1]
    exact ⟨fun hne heq => hne heq.symm, fun hne heq => hne heq.symm⟩
  · rw [e2]
    exact ⟨fun hne heq => hne heq.symm, fun hne heq => hne heq.symm⟩

/-- Witness for C5 (amended): the source at address 0 holds "Hello". -/
theorem move_vacates_nonempty_source_witness :
    (1 : Addr) ≠ 0 ∧
    ∃ σ1 σ2, A.construct hello_at_0 1 (std.move (var 0)) = some σ1 ∧
      A.assign hello_at_0 1 (std.move (var 0)) = some (σ2, 1) ∧
      σ1.mem (A.member 1) = hello_at_0.mem (A.member 0) ∧
      σ2.mem (A.member 1) = hello_at_0.mem (A.member 0) ∧
      σ1.mem (A.member 0) = "" ∧
      σ2.mem (A.member 0) = "" ∧
      (σ1.mem (A.member 0) ≠ hello_at_0.mem (A.member 0) ↔ hello_at_0.mem (A.member 0) ≠ "") ∧
      (σ2.mem (A.member 0) ≠ hello_at_0.mem (A.member 0) ↔ hello_at_0.mem (A.member 0) ≠ "") :=
  ⟨by decide, move_vacates_nonempty_source hello_at_0 1 0 (by decide)⟩

/-- C6, counterexample: class `A` has no copy operations.  Constructing an `A`
from the variable at address 0 (`A b(a)`), or assigning that variable
(`b = a`), selects no constructor or assignment operator, whether or not the
variable is const; nothing is copied and no marker is written. -/
theorem copy_of_A_rejected :
    A.construct hello_at_0 1 (var 0) = none ∧
    A.assign hello_at_0 1 (var 0) = none ∧
    A.construct hello_at_0 1 (const_var 0) = none ∧
    A.assign hello_at_0 1 (const_var 0) = none ∧
    A.construct hello_at_0 1 (std.move (const_var 0)) = none ∧
    A.assign hello_at_0 1 (std.move (const_var 0)) = none :=
  ⟨rfl, rfl, rfl, rfl, rfl, rfl⟩

/-- C6, amended: class `A` has no copy construction and no copy assignment.
Constructing or assigning an `A` from a named `A` object, const or not, or from
a const `A` passed through `std::move`, selects no constructor or assignment
operator in any state, so nothing is copied and no copy marker is written.  A
non-const `A` passed through `std::move` selects the move constructor and the
move assignment operator, whose markers differ from each other. -/
theorem A_has_no_copy_operations (σ : State) (this a : Addr) :
    A.construct σ this (var a) = none ∧
    A.assign σ this (var a) = none ∧
    A.construct σ this (const_var a) = none ∧
    A.assign σ this (const_var a) = none ∧
    A.construct σ this (std.move (const_var a)) = none ∧
    A.assign σ this (std.move (const_var a)) = none ∧
    (∃ σ1 σ2, A.construct σ this (std.move (var a)) = some σ1 ∧
      A.assign σ this (std.move (var a)) = some (σ2, this) ∧
      σ1.cout = σ.cout ++ "A Move constructor\n" ∧
      σ2.cout = σ.cout ++ "A Move Assignment\n" ∧
      σ1.cout ≠ σ2.cout) := by
  have c1 : (((std.string.move_ctor σ (A.member this) (A.member a)).put
      "A Move constructor").endl).cout = σ.cout ++ "A Move constructor\n" := by
    simp only [State.endl_cout, State.put_cout, std.string.move_ctor, State.store_cout,
      String.append_assoc]
    rfl
  have c2 : (std.string.move_assign ((σ.put "A Move Assignment").endl)
      (A.member this) (A.member a)).cout = σ.cout ++ "A Move Assignment\n" := by
    simp only [State.endl_cout, State.put_cout, std.string.move_assign, State.store_cout,
      String.append_assoc]
    rfl
  refine ⟨rfl, rfl, rfl, rfl, rfl, rfl, _, _, A.A_move_eq σ this a,
    A.operator_assign_eq σ this a, c1, c2, ?_⟩
  rw [c1, c2]
  exact append_ne_of_ne _ _ _ (by decide)

/-- C7 (trace of `main`): from any state `main` terminates with status 0 and
appends to the output exactly the move-constructor line, the move-assignment
line, the report after the copy with `str` equal to "Hello", the report after
the move with `str` empty, and the vector contents "Hello", "Hello"; a default
construction writes nothing. -/
theorem main_writes_exact_trace (σ : State) :
    (∃ σ', main σ = some (σ', 0) ∧
      σ'.cout = σ.cout ++
        "A Move constructor\nA Move Assignment\nAfter copy, str is \"Hello\"\nAfter move, str is \"\"\nThe contents of the vector are \"Hello\", \"Hello\"\n") ∧
    (∀ a, (A.A σ a).cout = σ.cout) :=
  ⟨main_run σ, fun _ => rfl⟩

/-- C8 (the cast is pure annotation): evaluating `std::move(x)` leaves the
state, hence the content of `x` and the output, unchanged; the result
identifies the same object as `x`, keeps its const-qualification and is an
xvalue. -/
theorem move_is_only_a_cast (σ : State) (x : Expr) :
    (std.move_call σ x).1 = σ ∧
    (std.move_call σ x).1.mem x.obj = σ.mem x.obj ∧
    (std.move_call σ x).1.cout = σ.cout ∧
    (std.move_call σ x).2.obj = x.obj ∧
    (std.move_call σ x).2.isConst = x.isConst ∧
    (std.move_call σ x).2.cat = Category.xvalue :=
  ⟨rfl, rfl, rfl, rfl, rfl, rfl⟩

/-- C9 (default construction): `A()` leaves `member` empty and writes nothing
to the output. -/
theorem default_construct_empty (σ : State) (this : Addr) :
    (A.A σ this).mem (A.member this) = "" ∧ (A.A σ this).cout = σ.cout := by
  constructor
  · simp [A.A, std.string.default_ctor]
  · rfl

/-- C10 (idempotent trace): running `main` twice in succession, the second run
starting in the state the first one left, both runs terminate and each appends
the same text `main_trace`, so the combined output is that text twice. -/
theorem main_twice_repeats_trace (σ : State) :
    ∃ σ1 σ2, main σ = some (σ1, 0) ∧ main σ1 = some (σ2, 0) ∧
      σ1.cout = σ.cout ++ main_trace ∧
      σ2.cout = σ1.cout ++ main_trace ∧
      σ2.cout = σ.cout ++ (main_trace ++ main_trace) := by
  obtain ⟨σ1, h1, c1⟩ := main_run σ
  obtain ⟨σ2, h2, c2⟩ := main_run σ1
  refine ⟨σ1, σ2, h1, h2, c1, c2, ?_⟩
  rw [c2, c1, String.append_assoc]

end StdMove
